import Mathlib

/-!
Shallow embedding of the EdgeFrontier hardware telemetry client
(`src/unnamed/part_001`, the richest variant of `main.cpp`): the sensor-data
document, the per-tick bodies of the Update / Send / Display / Inference /
Remote-Config-Poller loops, the registration retry loop, the `.env` loader
and the secure/insecure transport dispatch.  C++ `std::string` is embedded
as Lean `String` (or `List Char` where character indexing matters), machine
doubles drawn from `std::uniform_real_distribution` as `ℚ` with explicit
range hypotheses mirroring the distribution's guarantee, and the fallible
HTTP fetch-and-parse as `Option`.
-/

set_option autoImplicit false

namespace EdgeFrontier

/-! ## Modes, speeds and control state (`enum mode`, `enum speed`) -/

/-- Embeds `enum mode {SAFE_MODE, PREDICTION_MODE}`. -/
inductive Mode
  | SAFE_MODE
  | PREDICTION_MODE
  deriving DecidableEq, Repr

/-- Embeds `enum speed {SLOW, MEDIUM, FAST}`. -/
inductive Speed
  | SLOW
  | MEDIUM
  | FAST
  deriving DecidableEq, Repr

/-- The process-wide control fields written by `handle_machine`:
`current_mode` and `current_speed`. -/
structure ControlState where
  mode : Mode
  speed : Speed
  deriving DecidableEq, Repr

/-! ## ASCII upper-casing (`std::transform(.., ::toupper)`) -/

/-- Embeds C++ `::toupper` in the default locale: an ASCII lowercase letter
is shifted to uppercase, every other character is unchanged. -/
def asciiToUpper (c : Char) : Char :=
  if 'a' ≤ c ∧ c ≤ 'z' then Char.ofNat (c.toNat - 32) else c

/-- Embeds `std::transform(s.begin(), s.end(), s.begin(), ::toupper)`. -/
def strToUpper (s : String) : String :=
  ⟨s.data.map asciiToUpper⟩

/-! ## Cadence (`delay`, `delay_server`, and each loop's sleep call)

All intervals are in microseconds, the unit the source uses for the
sub-second sleeps. -/

/-- Embeds `delay()`: `SLOW` sleeps `seconds(1)`, `MEDIUM` sleeps
`microseconds(200000)`, `FAST` sleeps `microseconds(100000)`. -/
def delay : Speed → ℕ
  | .SLOW => 1000000
  | .MEDIUM => 200000
  | .FAST => 100000

/-- Embeds `delay_server()`: a fixed `seconds(1)` sleep. -/
def delay_server : ℕ := 1000000

/-- Sleep performed by one iteration of `update_json_loop`: the source calls
`std::this_thread::sleep_for(std::chrono::seconds(1))` directly, not
`delay()`, so the interval does not depend on the speed setting. -/
def updateLoopSleep (_s : Speed) : ℕ := 1000000

/-- Sleep performed by one iteration of `print_json` (the Display loop):
the source calls `delay()`. -/
def printLoopSleep (s : Speed) : ℕ := delay s

/-- Sleep performed by one iteration of `send_json_loop`: the source calls
`delay()`. -/
def sendLoopSleep (s : Speed) : ℕ := delay s

/-- Sleep performed by one iteration of `send_json_loop_secure`: the source
calls `delay()`. -/
def sendSecureLoopSleep (s : Speed) : ℕ := delay s

/-- Sleep performed by one iteration of `Ai_handle` (the Inference loop):
the source calls `delay()`. -/
def aiLoopSleep (s : Speed) : ℕ := delay s

/-- Sleep performed by one iteration of `handle_machine` (the Remote Config
Poller): the source calls `delay_server()`, a fixed 1 second. -/
def machineLoopSleep (_s : Speed) : ℕ := delay_server

/-! ## Transport selection (`is_secure` and the dispatch in `main`) -/

/-- Embeds `is_secure`: `uri.substr(0, 3) == "wss"`, with the C++ string as
a list of characters (`substr(0, 3)` is `List.take 3`; for a string shorter
than three characters `substr` returns the whole string, as `take` does). -/
def is_secure (uri : List Char) : Bool :=
  uri.take 3 == ['w', 's', 's']

/-- The two transport variants of `main`: `handle_secure` over the TLS
client and `handle_no_secure` over the plain client. -/
inductive Transport
  | secure
  | insecure
  deriving DecidableEq, Repr

/-- Embeds the dispatch in `main`:
`is_secure(uri) ? handle_secure(ws_uri_cstr, &tc) : handle_no_secure(ws_uri_cstr, &c)`. -/
def chooseTransport (uri : List Char) : Transport :=
  if is_secure uri then .secure else .insecure

/-! ## The Telemetry State document (`nlohmann::json sensor_data`) -/

/-- The `"Data"` sub-document: six numeric channels, each drawn from
`std::uniform_real_distribution<> dis(0.0, 100.0)`.  Doubles are embedded
as rationals. -/
structure SensorReadings where
  co2 : ℚ
  voc : ℚ
  ra : ℚ
  temp : ℚ
  humid : ℚ
  pressure : ℚ
  deriving DecidableEq, Repr

/-- The `"Prediction"` sub-document: one value per event name. -/
structure Prediction where
  cold : ℚ
  warm : ℚ
  hot : ℚ
  dry : ℚ
  wet : ℚ
  normal : ℚ
  unknown : ℚ
  deriving DecidableEq, Repr

/-- The in-memory `sensor_data` document.  The `"Prediction"` key is always
present internally; serializers that drop it produce a `Snapshot` with
`predictionOpt = none` instead. -/
structure SensorData where
  timeStamp : String
  hardwareID : String
  event : String
  mode : String
  data : SensorReadings
  prediction : Prediction
  deriving DecidableEq, Repr

/-- The event-name table `const char* Event[] = {"Cold", ..., "Unknown"}`. -/
def EventNames : List String :=
  ["Cold", "Warm", "Hot", "Dry", "Wet", "Normal", "Unknown"]

/-- The all-zero initial `"Prediction"` sub-document of `sensor_data`. -/
def initPrediction : Prediction :=
  ⟨0, 0, 0, 0, 0, 0, 0⟩

/-- The static initializer of `sensor_data`: fixed timestamp and event, the
placeholder hardware id `"UNKNOWn"`, mode string `"SAFE"` (the initializer
runs with `current_mode == SAFE_MODE`), six fresh draws for the channels,
and the all-zero prediction sub-document.  The six draws are passed in as
`d0` since the source takes them from the process-wide generator. -/
def initSensorData (d0 : SensorReadings) : SensorData :=
  { timeStamp := "2023-10-05 12:00:00"
    hardwareID := "UNKNOWn"
    event := "Cold"
    mode := "SAFE"
    data := d0
    prediction := initPrediction }

/-! ## `update_sensor_data` (the Update loop's `regenerate`) -/

/-- The random draws consumed by one `update_sensor_data` call: six channel
values from `dis(gen)` and one event index from
`std::uniform_int_distribution<> event_dist(0, 6)`. -/
structure Draws where
  readings : SensorReadings
  eventIdx : ℕ
  deriving DecidableEq, Repr

/-- Guarantee of the source's distributions: `dis` produces values in
`[0, 100)` and `event_dist` produces indices in `[0, 6]`. -/
def DrawsInRange (d : Draws) : Prop :=
  0 ≤ d.readings.co2 ∧ d.readings.co2 < 100 ∧
  0 ≤ d.readings.voc ∧ d.readings.voc < 100 ∧
  0 ≤ d.readings.ra ∧ d.readings.ra < 100 ∧
  0 ≤ d.readings.temp ∧ d.readings.temp < 100 ∧
  0 ≤ d.readings.humid ∧ d.readings.humid < 100 ∧
  0 ≤ d.readings.pressure ∧ d.readings.pressure < 100 ∧
  d.eventIdx < 7

instance (d : Draws) : Decidable (DrawsInRange d) := by
  unfold DrawsInRange; infer_instance

/-- Embeds `update_sensor_data(nlohmann::json& j)`: stamps the time, writes
the current `HardwareID`, draws a fresh event name and six fresh channel
values, and rewrites the `"Mode"` string from `current_mode`.  The
`"Prediction"` sub-document is not touched.  The ambient globals it reads
(`HardwareID`, `current_mode`, the clock, the generator) are passed as
arguments. -/
def update_sensor_data (hid : String) (m : Mode) (ts : String) (d : Draws)
    (j : SensorData) : SensorData :=
  { j with
    timeStamp := ts
    hardwareID := hid
    event := (EventNames.get? d.eventIdx).getD "Cold"
    mode := if m = .PREDICTION_MODE then "PREDICTION" else "SAFE"
    data := d.readings }

/-- The arguments of one Update-loop tick. -/
structure UpdateArgs where
  hid : String
  m : Mode
  ts : String
  d : Draws
  deriving DecidableEq, Repr

/-- A sequence of Update-loop ticks applied to a document. -/
def runUpdates (j : SensorData) (args : List UpdateArgs) : SensorData :=
  args.foldl (fun acc a => update_sensor_data a.hid a.m a.ts a.d acc) j

/-! ## Serialization (`print_json` and the two send loops) -/

/-- An externally rendered or sent snapshot of the document: same fields,
but the `"Prediction"` key may be absent (`predictionOpt = none`). -/
structure Snapshot where
  timeStamp : String
  hardwareID : String
  event : String
  mode : String
  data : SensorReadings
  predictionOpt : Option Prediction
  deriving DecidableEq, Repr

/-- Plain `sensor_data.dump()`: all keys present, `"Prediction"` included. -/
def dumpSensorData (sd : SensorData) : Snapshot :=
  { timeStamp := sd.timeStamp
    hardwareID := sd.hardwareID
    event := sd.event
    mode := sd.mode
    data := sd.data
    predictionOpt := some sd.prediction }

/-- The document printed by one iteration of `print_json` (the Display
loop): when `current_mode == SAFE_MODE` the document is cloned and
`erase("Prediction")` is applied to the clone before dumping; otherwise
`sensor_data` is dumped as is. -/
def print_json_tick (m : Mode) (sd : SensorData) : Snapshot :=
  if m = .SAFE_MODE then
    { dumpSensorData sd with predictionOpt := none }
  else
    dumpSensorData sd

/-- The document sent by one iteration of `send_json_loop`: the source
dumps `sensor_data` unconditionally (`std::string message = sensor_data.dump()`)
— it never reads `current_mode` and never erases `"Prediction"`.  The mode
argument is accepted and ignored, mirroring that the global is in scope but
unused. -/
def send_json_tick (_m : Mode) (sd : SensorData) : Snapshot :=
  dumpSensorData sd

/-- The document sent by one iteration of `send_json_loop_secure`: same
unconditional `sensor_data.dump()` as `send_json_loop`. -/
def send_json_secure_tick (_m : Mode) (sd : SensorData) : Snapshot :=
  dumpSensorData sd

/-! ## Shared-state operations (for the frame property of `"Prediction"`)

The operations of the run that touch (or could touch) the shared
`sensor_data` document. -/

/-- One shared-state operation of the running program:
`update` is an Update-loop tick (`update_sensor_data` on the shared doc);
`display` is a Display-loop tick (`print_json` clones the document and
erases `"Prediction"` only on the clone, leaving the shared doc unchanged);
`send` is a Send-loop tick (read-only dump);
`inference` is an Inference-loop tick (`Ai_handle` computes
`mlp2.predict(inputs, R_D)` on synthetic inputs and discards the result
without writing the shared doc). -/
inductive StateOp
  | update (a : UpdateArgs)
  | display
  | send
  | inference

/-- Effect of one operation on the shared `sensor_data` document. -/
def applyOp (sd : SensorData) : StateOp → SensorData
  | .update a => update_sensor_data a.hid a.m a.ts a.d sd
  | .display => sd
  | .send => sd
  | .inference => sd

/-- Effect of a whole interleaving of loop ticks on the shared document. -/
def runOps (sd : SensorData) (ops : List StateOp) : SensorData :=
  ops.foldl applyOp sd

/-! ## `handle_machine` (the Remote Config Poller) -/

/-- The parsed body of a non-empty `/hardware` response:
`{HardwareID, Mode, Speed}`. -/
structure ConfigDoc where
  hardwareID : String
  mode : String
  speed : String
  deriving DecidableEq, Repr

/-- The matched branch of `handle_machine`: upper-case `Mode` and `Speed`
and apply them — `"PREDICTION"` selects `PREDICTION_MODE`, anything else
selects `SAFE_MODE`; `"SLOW"` and `"MEDIUM"` select those speeds, anything
else selects `FAST`.  (The source writes each field only when it differs
from the current value; the resulting state is the same.) -/
def applyConfig (d : ConfigDoc) : ControlState :=
  { mode := if strToUpper d.mode = "PREDICTION" then .PREDICTION_MODE else .SAFE_MODE
    speed :=
      if strToUpper d.speed = "SLOW" then .SLOW
      else if strToUpper d.speed = "MEDIUM" then .MEDIUM
      else .FAST }

/-- One poll tick of `handle_machine` acting on the control state:
`resp = none` embeds an empty HTTP response (`res == ""`, the tick is
skipped); `resp = some d` embeds a response that parsed to `d`, which is
applied only when `d.HardwareID` equals the local `HardwareID` exactly
(`pre_info["HardwareID"] == HardwareID`), and otherwise logged and
skipped. -/
def handle_machine_tick (localID : String) (st : ControlState)
    (resp : Option ConfigDoc) : ControlState :=
  match resp with
  | none => st
  | some d => if d.hardwareID = localID then applyConfig d else st

/-! ## Registration retry loop in `main` -/

/-- The value of the global `HardwareID` when the registration loop starts:
`"UNKNOWn"` upper-cased by `main` before the loop. -/
def initialHardwareID : String := strToUpper "UNKNOWn"

/-- Effect of one registration tick on `HardwareID`.
`resp = none` embeds an empty `/register` response; `resp = some s` embeds
a response whose parsed `HardwareID` field is `s`.  Per the source, a
non-empty response is applied only when `pre_info["HardwareID"] != "UNKNOWN"`,
and the applied value is upper-cased. -/
def regTickApply (hid : String) (resp : Option String) : String :=
  match resp with
  | none => hid
  | some s => if s ≠ "UNKNOWN" then strToUpper s else hid

/-- Sleep (microseconds) performed by one registration tick: the source
sleeps `microseconds(200000)` only inside `if (response == "")`; every
non-empty response falls through to the next loop test with no sleep. -/
def regSleepMicros (resp : Option String) : ℕ :=
  match resp with
  | none => 200000
  | some _ => 0

/-- The registration retry loop `while (HardwareID == "UNKNOWN") {...}`,
run against a (finite prefix of a) stream of responses: each tick is taken
only while the id is still the placeholder. -/
def regLoop (hid : String) : List (Option String) → String
  | [] => hid
  | r :: rest => if hid = "UNKNOWN" then regLoop (regTickApply hid r) rest else hid

/-- The ordered actions of `main` relevant to startup: the registration
retry loop, then the spawns of the worker threads.  `handle_secure` /
`handle_no_secure` spawn the websocket, Update, Display and Inference
threads in that order; the Send thread is spawned by the connection's
open callback, at an interleaving-dependent moment that is in any case
after `connect`, hence after registration. -/
inductive MainAction
  | registrationLoop
  | spawnMachineThread
  | spawnInputThread
  | spawnWebsocketThread
  | spawnSendThread
  | spawnUpdateThread
  | spawnDisplayThread
  | spawnInferenceThread
  deriving DecidableEq, Repr

/-- Program order of the startup actions of `main` (`part_001` lines
851-943 and the thread starts inside `handle_no_secure` / `handle_secure`). -/
def mainSequence : List MainAction :=
  [.registrationLoop, .spawnMachineThread, .spawnInputThread,
   .spawnWebsocketThread, .spawnSendThread, .spawnUpdateThread,
   .spawnDisplayThread, .spawnInferenceThread]

/-- Whether a startup action spawns a worker-loop thread. -/
def isSpawn : MainAction → Bool
  | .registrationLoop => false
  | _ => true

/-! ## `loadEnvFile` -/

/-- Splits a line at its first `'='`: embeds the pair
`line.find('=')` / `key = substr(0, pos)`, `value = substr(pos + 1)`;
`none` embeds `find` returning `npos`. -/
def splitAtEq : List Char → Option (List Char × List Char)
  | [] => none
  | c :: rest =>
    if c = '=' then some ([], rest)
    else
      match splitAtEq rest with
      | none => none
      | some (k, v) => some (c :: k, v)

/-- One line of the `.env` loader: an empty line or a line whose first
character is `'#'` is skipped, a line with no `'='` is logged as malformed
and skipped, and otherwise the line yields the key before the first `'='`
and the value after it. -/
def parseEnvLine (line : List Char) : Option (List Char × List Char) :=
  if line = [] then none
  else if line.head? = some '#' then none
  else splitAtEq line

/-- One step of the `.env` loader's fold: a line that parses to a key-value
pair is stored (`envMap[key] = value`, overwriting any earlier entry for
the same key); a skipped line leaves the map untouched. -/
def envStep (m : List Char → Option (List Char)) (line : List Char) :
    List Char → Option (List Char) :=
  match parseEnvLine line with
  | none => m
  | some kv => fun q => if q = kv.1 then some kv.2 else m q

/-- Embeds `loadEnvFile`: fold the lines of the file into a map, later
entries for the same key overwriting earlier ones
(`envMap[key] = value` on a `std::unordered_map`).  The map is embedded as
a lookup function. -/
def loadEnvFile (lines : List (List Char)) : List Char → Option (List Char) :=
  lines.foldl envStep (fun _ => none)

/-! ## The shared loop shape `while (is_run) { work; sleep }`

Each of `update_json_loop`, `print_json`, `send_json_loop`,
`send_json_loop_secure`, `Ai_handle` and `handle_machine` has exactly this
shape: the `is_run` flag is read once per iteration, at the top of the
loop, and never during the body or the sleep.  The model samples the flag
at the loop-top times `t 0 < t 1 < ...`; iteration `i` (one `do_work` plus
one sleep) executes exactly when every loop-top read up to and including
the `i`-th saw the flag still true. -/
def loopExecutes (flag : ℕ → Bool) (t : ℕ → ℕ) : ℕ → Bool
  | 0 => flag (t 0)
  | i + 1 => loopExecutes flag t i && flag (t (i + 1))

/-! ## Range predicates used by the testable properties -/

/-- Each of the six channel values lies in the half-open interval `[0, 100)`. -/
def ChannelsInRange (r : SensorReadings) : Prop :=
  0 ≤ r.co2 ∧ r.co2 < 100 ∧
  0 ≤ r.voc ∧ r.voc < 100 ∧
  0 ≤ r.ra ∧ r.ra < 100 ∧
  0 ≤ r.temp ∧ r.temp < 100 ∧
  0 ≤ r.humid ∧ r.humid < 100 ∧
  0 ≤ r.pressure ∧ r.pressure < 100

instance (r : SensorReadings) : Decidable (ChannelsInRange r) := by
  unfold ChannelsInRange; infer_instance

/-- Every value of the prediction sub-document lies in `[0, 1]`. -/
def PredIn01 (p : Prediction) : Prop :=
  0 ≤ p.cold ∧ p.cold ≤ 1 ∧
  0 ≤ p.warm ∧ p.warm ≤ 1 ∧
  0 ≤ p.hot ∧ p.hot ≤ 1 ∧
  0 ≤ p.dry ∧ p.dry ≤ 1 ∧
  0 ≤ p.wet ∧ p.wet ≤ 1 ∧
  0 ≤ p.normal ∧ p.normal ≤ 1 ∧
  0 ≤ p.unknown ∧ p.unknown ≤ 1

instance (p : Prediction) : Decidable (PredIn01 p) := by
  unfold PredIn01; infer_instance

/-- A concrete telemetry document used to instantiate universally
quantified statements. -/
def sampleSensorData : SensorData :=
  initSensorData ⟨12, 34, 5, 21, 60, 50⟩

/-! ## Helper lemmas -/

theorem update_sensor_data_prediction (hid : String) (m : Mode) (ts : String)
    (d : Draws) (j : SensorData) :
    (update_sensor_data hid m ts d j).prediction = j.prediction := rfl

theorem applyOp_prediction (sd : SensorData) (op : StateOp) :
    (applyOp sd op).prediction = sd.prediction := by
  cases op <;> rfl

theorem runOps_prediction (ops : List StateOp) (sd : SensorData) :
    (runOps sd ops).prediction = sd.prediction := by
  induction ops generalizing sd with
  | nil => rfl
  | cons op rest ih =>
    show (runOps (applyOp sd op) rest).prediction = sd.prediction
    rw [ih, applyOp_prediction]

theorem runUpdates_prediction (args : List UpdateArgs) (j : SensorData) :
    (runUpdates j args).prediction = j.prediction := by
  induction args generalizing j with
  | nil => rfl
  | cons a rest ih =>
    show (runUpdates (update_sensor_data a.hid a.m a.ts a.d j) rest).prediction
        = j.prediction
    rw [ih, update_sensor_data_prediction]

theorem update_sensor_data_props (hid : String) (m : Mode) (ts : String)
    (d : Draws) (j : SensorData) (h : DrawsInRange d) :
    ChannelsInRange (update_sensor_data hid m ts d j).data ∧
      (update_sensor_data hid m ts d j).event ∈ EventNames := by
  obtain ⟨h1, h2, h3, h4, h5, h6, h7, h8, h9, h10, h11, h12, hidx⟩ := h
  refine ⟨⟨h1, h2, h3, h4, h5, h6, h7, h8, h9, h10, h11, h12⟩, ?_⟩
  show (EventNames.get? d.eventIdx).getD "Cold" ∈ EventNames
  have hlen : d.eventIdx < EventNames.length := by
    simpa [EventNames] using hidx
  cases hx : EventNames.get? d.eventIdx with
  | none =>
    rw [List.get?_eq_none] at hx
    omega
  | some x =>
    simpa using List.get?_mem hx

theorem runUpdates_props (args : List UpdateArgs) (j : SensorData)
    (hne : args ≠ []) (h : ∀ a ∈ args, DrawsInRange a.d) :
    ChannelsInRange (runUpdates j args).data ∧
      (runUpdates j args).event ∈ EventNames := by
  induction args generalizing j with
  | nil => exact absurd rfl hne
  | cons a rest ih =>
    have hstep : runUpdates j (a :: rest)
        = runUpdates (update_sensor_data a.hid a.m a.ts a.d j) rest := rfl
    by_cases hr : rest = []
    · subst hr
      rw [hstep]
      exact update_sensor_data_props a.hid a.m a.ts a.d j (h a (by simp))
    · rw [hstep]
      exact ih _ hr (fun b hb => h b (by simp [hb]))

/-! ## Claim theorems -/

/-- C1 counterexample: with `current_mode == SAFE_MODE`, the document
serialized by a `send_json_loop` iteration still contains the
`"Prediction"` key, because the send loop dumps `sensor_data` without
erasing it — refuting the claim that the wire serialization omits the
predictions sub-document exactly when the mode is SAFE. -/
theorem C1_safe_send_contains_prediction :
    (send_json_tick Mode.SAFE_MODE sampleSensorData).predictionOpt.isSome = true := rfl

/-- C1 (amended): the display serialization (`print_json`) omits the
`"Prediction"` key exactly when the mode is SAFE, but the wire
serializations (`send_json_loop` and `send_json_loop_secure`) dump the
document unconditionally, so the sent snapshot contains the key in both
modes. -/
theorem C1_amended_prediction_key_presence (m : Mode) (sd : SensorData) :
    ((print_json_tick m sd).predictionOpt.isSome = true ↔ m = .PREDICTION_MODE)
    ∧ (send_json_tick m sd).predictionOpt.isSome = true
    ∧ (send_json_secure_tick m sd).predictionOpt.isSome = true := by
  cases m <;>
    simp [print_json_tick, send_json_tick, send_json_secure_tick, dumpSensorData]

/-- C1 (amended) instantiated at a concrete mode and document. -/
theorem C1_amended_prediction_key_presence_witness :
    ((print_json_tick Mode.SAFE_MODE sampleSensorData).predictionOpt.isSome = true
      ↔ Mode.SAFE_MODE = Mode.PREDICTION_MODE)
    ∧ (send_json_tick Mode.SAFE_MODE sampleSensorData).predictionOpt.isSome = true
    ∧ (send_json_secure_tick Mode.SAFE_MODE sampleSensorData).predictionOpt.isSome = true :=
  C1_amended_prediction_key_presence Mode.SAFE_MODE sampleSensorData

/-- C2 counterexample: at `speed == FAST` the Update loop sleeps its fixed
1 second (`sleep_for(seconds(1))`), not the 100 ms that the speed function
`delay()` prescribes — refuting the claim that the Update loop's interval
is the function of the current speed setting. -/
theorem C2_update_sleep_not_speed_scaled :
    updateLoopSleep Speed.FAST ≠ delay Speed.FAST := by decide

/-- C2 (amended): the Send, Display and Inference loops sleep `delay()`
(SLOW = 1 s, MEDIUM = 200 ms, FAST = 100 ms) between iterations, so their
cadence follows the speed setting; the Update loop instead sleeps a fixed
1 second every iteration, unaffected by `control.speed` (as does the
remote-config poller via `delay_server()`). -/
theorem C2_amended_loop_cadence :
    (∀ s, printLoopSleep s = delay s
      ∧ sendLoopSleep s = delay s
      ∧ sendSecureLoopSleep s = delay s
      ∧ aiLoopSleep s = delay s)
    ∧ delay .SLOW = 1000000 ∧ delay .MEDIUM = 200000 ∧ delay .FAST = 100000
    ∧ (∀ s, updateLoopSleep s = 1000000)
    ∧ (∀ s, machineLoopSleep s = 1000000) := by
  refine ⟨fun s => ⟨rfl, rfl, rfl, rfl⟩, rfl, rfl, rfl, fun s => rfl, fun s => rfl⟩

/-- C3: a `handle_machine` poll tick whose HTTP response is empty, or whose
parsed `HardwareID` differs from the local one, leaves `current_mode` and
`current_speed` exactly as they were. -/
theorem C3_skip_tick_preserves_control (localID : String) (st : ControlState) :
    handle_machine_tick localID st none = st
    ∧ ∀ d : ConfigDoc, d.hardwareID ≠ localID →
        handle_machine_tick localID st (some d) = st := by
  refine ⟨rfl, fun d hd => ?_⟩
  simp [handle_machine_tick, hd]

/-- C3 instantiated: the placeholder-free local id `"HW42"` against an
empty response and against a response for `"OTHER"`. -/
theorem C3_skip_tick_preserves_control_witness :
    handle_machine_tick "HW42" ⟨.SAFE_MODE, .SLOW⟩ none = ⟨.SAFE_MODE, .SLOW⟩
    ∧ handle_machine_tick "HW42" ⟨.SAFE_MODE, .SLOW⟩
        (some ⟨"OTHER", "PREDICTION", "FAST"⟩) = ⟨.SAFE_MODE, .SLOW⟩ :=
  ⟨(C3_skip_tick_preserves_control "HW42" ⟨.SAFE_MODE, .SLOW⟩).1,
   (C3_skip_tick_preserves_control "HW42" ⟨.SAFE_MODE, .SLOW⟩).2
     ⟨"OTHER", "PREDICTION", "FAST"⟩ (by decide)⟩

/-- C10: on a matched tick, any `Mode` string whose upper-cased form is
not `"PREDICTION"` yields `SAFE_MODE`, and any `Speed` string whose
upper-cased form is neither `"SLOW"` nor `"MEDIUM"` yields `FAST`. -/
theorem C10_config_defaults (localID : String) (st : ControlState)
    (d : ConfigDoc) (hid : d.hardwareID = localID) :
    (strToUpper d.mode ≠ "PREDICTION" →
      (handle_machine_tick localID st (some d)).mode = Mode.SAFE_MODE)
    ∧ (strToUpper d.speed ≠ "SLOW" → strToUpper d.speed ≠ "MEDIUM" →
      (handle_machine_tick localID st (some d)).speed = Speed.FAST) := by
  constructor
  · intro hm
    simp [handle_machine_tick, hid, applyConfig, hm]
  · intro hs1 hs2
    simp [handle_machine_tick, hid, applyConfig, hs1, hs2]

/-- C10 instantiated: an unrecognized mode string `"off"` and an empty
speed string both fall through to the defaults `SAFE_MODE` and `FAST`. -/
theorem C10_config_defaults_witness :
    (handle_machine_tick "HW7" ⟨.PREDICTION_MODE, .SLOW⟩
        (some ⟨"HW7", "off", ""⟩)).mode = Mode.SAFE_MODE
    ∧ (handle_machine_tick "HW7" ⟨.PREDICTION_MODE, .SLOW⟩
        (some ⟨"HW7", "off", ""⟩)).speed = Speed.FAST :=
  ⟨(C10_config_defaults "HW7" ⟨.PREDICTION_MODE, .SLOW⟩ ⟨"HW7", "off", ""⟩ rfl).1
      (by decide),
   (C10_config_defaults "HW7" ⟨.PREDICTION_MODE, .SLOW⟩ ⟨"HW7", "off", ""⟩ rfl).2
      (by decide) (by decide)⟩

/-- C5: every document produced by a (sequence of) `update_sensor_data`
call(s) starting from the initial `sensor_data` has its six channel values
in `[0, 100)` (the range of `dis`), its `Event` among the seven names of
the `Event[]` table, and every value of its `Prediction` sub-document in
`[0, 1]` (the sub-document is never rewritten, so its values stay at their
initial `0.0`). -/
theorem C5_generated_document_ranges (d0 : SensorReadings)
    (args : List UpdateArgs) (hne : args ≠ [])
    (h : ∀ a ∈ args, DrawsInRange a.d) :
    ChannelsInRange (runUpdates (initSensorData d0) args).data
    ∧ (runUpdates (initSensorData d0) args).event ∈ EventNames
    ∧ PredIn01 (runUpdates (initSensorData d0) args).prediction := by
  obtain ⟨hch, hev⟩ := runUpdates_props args (initSensorData d0) hne h
  refine ⟨hch, hev, ?_⟩
  rw [runUpdates_prediction]
  exact (by decide : PredIn01 initPrediction)

/-- C5 instantiated: one Update tick with concrete in-range draws. -/
theorem C5_generated_document_ranges_witness :
    ChannelsInRange (runUpdates (initSensorData ⟨1, 2, 3, 4, 5, 6⟩)
      [⟨"HW42", .SAFE_MODE, "2024-11-05 00:00:00", ⟨⟨7, 8, 9, 10, 11, 99⟩, 6⟩⟩]).data
    ∧ (runUpdates (initSensorData ⟨1, 2, 3, 4, 5, 6⟩)
      [⟨"HW42", .SAFE_MODE, "2024-11-05 00:00:00", ⟨⟨7, 8, 9, 10, 11, 99⟩, 6⟩⟩]).event
        ∈ EventNames
    ∧ PredIn01 (runUpdates (initSensorData ⟨1, 2, 3, 4, 5, 6⟩)
      [⟨"HW42", .SAFE_MODE, "2024-11-05 00:00:00", ⟨⟨7, 8, 9, 10, 11, 99⟩, 6⟩⟩]).prediction :=
  C5_generated_document_ranges ⟨1, 2, 3, 4, 5, 6⟩
    [⟨"HW42", .SAFE_MODE, "2024-11-05 00:00:00", ⟨⟨7, 8, 9, 10, 11, 99⟩, 6⟩⟩]
    (by decide) (by decide)

/-- C9: no shared-state operation of the run ever rewrites the
`"Prediction"` sub-document — an Update tick copies it unchanged, a
Display tick erases it only on a local clone, Send ticks are read-only,
and an Inference tick discards the `predict` result — so after any
interleaving of loop ticks the shared document's prediction values still
equal the initial all-zero sub-document. -/
theorem C9_prediction_never_written :
    (∀ (sd : SensorData) (op : StateOp), (applyOp sd op).prediction = sd.prediction)
    ∧ (∀ (d0 : SensorReadings) (ops : List StateOp),
        (runOps (initSensorData d0) ops).prediction = initPrediction) := by
  refine ⟨applyOp_prediction, fun d0 ops => ?_⟩
  rw [runOps_prediction]
  rfl

/-- Characterization of a three-character prefix: `take 3` equals
`['w', 's', 's']` exactly when the list starts with those three
characters. -/
theorem take_three_eq_wss (l : List Char) :
    l.take 3 = ['w', 's', 's'] ↔ ∃ rest, l = 'w' :: 's' :: 's' :: rest := by
  rcases l with _ | ⟨a, _ | ⟨b, _ | ⟨c, rest⟩⟩⟩ <;> simp [List.take]

/-- C6: `is_secure` returns `true` exactly when the first three characters
of the URI are `'w'`, `'s'`, `'s'` (case-sensitively, and regardless of
what follows), and this boolean alone selects the secure
(`handle_secure`) versus insecure (`handle_no_secure`) client path. -/
theorem C6_is_secure_iff_wss_scheme (uri : List Char) :
    (is_secure uri = true ↔ ∃ rest, uri = 'w' :: 's' :: 's' :: rest)
    ∧ (chooseTransport uri = .secure ↔ is_secure uri = true)
    ∧ (chooseTransport uri = .insecure ↔ is_secure uri = false) := by
  refine ⟨?_, ?_, ?_⟩
  · rw [← take_three_eq_wss]
    simp [is_secure]
  · by_cases h : is_secure uri <;> simp [chooseTransport, h]
  · by_cases h : is_secure uri <;> simp [chooseTransport, h]

/-- C6 instantiated at the concrete URI `"wss://x"`. -/
theorem C6_is_secure_iff_wss_scheme_witness :
    (is_secure ['w', 's', 's', ':', '/', '/', 'x'] = true
      ↔ ∃ rest, ['w', 's', 's', ':', '/', '/', 'x'] = 'w' :: 's' :: 's' :: rest)
    ∧ (chooseTransport ['w', 's', 's', ':', '/', '/', 'x'] = .secure
      ↔ is_secure ['w', 's', 's', ':', '/', '/', 'x'] = true)
    ∧ (chooseTransport ['w', 's', 's', ':', '/', '/', 'x'] = .insecure
      ↔ is_secure ['w', 's', 's', ':', '/', '/', 'x'] = false) :=
  C6_is_secure_iff_wss_scheme ['w', 's', 's', ':', '/', '/', 'x']

/-! ## Helper lemmas for the registration loop and the env loader -/

theorem regLoop_of_ne (hid : String) (h : hid ≠ "UNKNOWN")
    (resps : List (Option String)) : regLoop hid resps = hid := by
  cases resps with
  | nil => rfl
  | cons r rest => simp [regLoop, h]

theorem regLoop_result (resps : List (Option String)) :
    regLoop "UNKNOWN" resps = "UNKNOWN"
    ∨ ∃ s, some s ∈ resps ∧ s ≠ "UNKNOWN"
        ∧ regLoop "UNKNOWN" resps = strToUpper s := by
  induction resps with
  | nil => exact Or.inl rfl
  | cons r rest ih =>
    have hstep : regLoop "UNKNOWN" (r :: rest)
        = regLoop (regTickApply "UNKNOWN" r) rest := by
      simp [regLoop]
    by_cases hx : regTickApply "UNKNOWN" r = "UNKNOWN"
    · rw [hstep, hx]
      rcases ih with h | ⟨s, hs, hne, heq⟩
      · exact Or.inl h
      · exact Or.inr ⟨s, List.mem_cons_of_mem _ hs, hne, heq⟩
    · rw [hstep, regLoop_of_ne _ hx rest]
      cases r with
      | none => exact absurd rfl hx
      | some s =>
        by_cases hs : s = "UNKNOWN"
        · subst hs
          exact absurd (by simp [regTickApply]) hx
        · refine Or.inr ⟨s, by simp, hs, ?_⟩
          simp [regTickApply, hs]

theorem splitAtEq_sound (l : List Char) :
    ∀ k v, splitAtEq l = some (k, v) → '=' ∉ k ∧ l = k ++ '=' :: v := by
  induction l with
  | nil => intro k v h; simp [splitAtEq] at h
  | cons c rest ih =>
    intro k v h
    by_cases hc : c = '='
    · subst hc
      rw [splitAtEq, if_pos rfl] at h
      injection h with h
      injection h with h1 h2
      subst h1
      subst h2
      simp
    · rw [splitAtEq, if_neg hc] at h
      cases hr : splitAtEq rest with
      | none => rw [hr] at h; exact absurd h (by simp)
      | some kv =>
        obtain ⟨k1, v1⟩ := kv
        rw [hr] at h
        injection h with h
        injection h with h1 h2
        subst h1
        subst h2
        obtain ⟨hmem, heq⟩ := ih k1 v1 hr
        constructor
        · simp only [List.mem_cons]
          rintro (h1 | h1)
          · exact hc h1.symm
          · exact hmem h1
        · rw [List.cons_append, heq]

theorem splitAtEq_complete (k : List Char) :
    ∀ v, '=' ∉ k → splitAtEq (k ++ '=' :: v) = some (k, v) := by
  induction k with
  | nil => intro v _; simp [splitAtEq]
  | cons c kt ih =>
    intro v hmem
    have hc : c ≠ '=' := by
      intro h; exact hmem (by simp [h])
    have hkt : '=' ∉ kt := by
      intro h; exact hmem (by simp [h])
    rw [List.cons_append, splitAtEq, if_neg hc, ih v hkt]

theorem splitAtEq_eq_none (l : List Char) (h : '=' ∉ l) :
    splitAtEq l = none := by
  induction l with
  | nil => rfl
  | cons c rest ih =>
    have hc : c ≠ '=' := by
      intro hcc; exact h (by simp [hcc])
    have hrest : '=' ∉ rest := by
      intro hr; exact h (by simp [hr])
    rw [splitAtEq, if_neg hc, ih hrest]

theorem envStep_skip (m : List Char → Option (List Char)) (line : List Char)
    (h : parseEnvLine line = none) : envStep m line = m := by
  simp [envStep, h]

/-! ## Claim theorems (registration, env loader, loop shape) -/

/-- C4 counterexample: a poll whose response is non-empty but carries the
placeholder id (`regTickApply` leaves `HardwareID` at `"UNKNOWN"`, so the
loop retries) performs no sleep at all — refuting the claim that main
waits 200 ms between consecutive registration retries. -/
theorem C4_retry_without_sleep :
    ¬ (∀ r, regTickApply "UNKNOWN" r = "UNKNOWN" → regSleepMicros r = 200000) := by
  intro h
  have := h (some "UNKNOWN") (by decide)
  simp [regSleepMicros] at this

/-- C4 (amended): before any worker loop starts, `main` upper-cases the
placeholder to `"UNKNOWN"` and runs the registration retry loop: it
re-polls `/register` while `HardwareID` is still the placeholder, sleeps
200 ms exactly when the response was empty (a non-empty response carrying
a placeholder id retries immediately with no sleep), stops polling as soon
as the id is no longer the placeholder, and can leave the loop with a new
id only when some response carried a non-placeholder id whose upper-cased
form was applied; every thread-spawning startup action of `main` comes
strictly after the registration loop. -/
theorem C4_amended_registration :
    initialHardwareID = "UNKNOWN"
    ∧ (∀ r, regSleepMicros r = 200000 ↔ r = none)
    ∧ (∀ s, regSleepMicros (some s) = 0)
    ∧ (∀ hid resps, hid ≠ "UNKNOWN" → regLoop hid resps = hid)
    ∧ (∀ resps, regLoop "UNKNOWN" resps = "UNKNOWN"
        ∨ ∃ s, some s ∈ resps ∧ s ≠ "UNKNOWN"
            ∧ regLoop "UNKNOWN" resps = strToUpper s)
    ∧ mainSequence.head? = some .registrationLoop
    ∧ (∀ i (h : i < mainSequence.length),
        isSpawn (mainSequence.get ⟨i, h⟩) = true → 0 < i) := by
  refine ⟨by decide, ?_, fun s => rfl, fun hid resps h => regLoop_of_ne hid h resps,
    regLoop_result, rfl, by decide⟩
  intro r
  cases r <;> simp [regSleepMicros]

/-- C4 (amended) instantiated: concrete registration ticks and the first
spawn position of `main`. -/
theorem C4_amended_registration_witness :
    regSleepMicros none = 200000
    ∧ regSleepMicros (some "X") = 0
    ∧ regLoop "HW9" [none] = "HW9"
    ∧ (regLoop "UNKNOWN" [some "hw9"] = "UNKNOWN"
        ∨ ∃ s, some s ∈ [some "hw9"] ∧ s ≠ "UNKNOWN"
            ∧ regLoop "UNKNOWN" [some "hw9"] = strToUpper s)
    ∧ 0 < 1 :=
  ⟨(C4_amended_registration.2.1 none).mpr rfl,
   C4_amended_registration.2.2.1 "X",
   C4_amended_registration.2.2.2.1 "HW9" [none] (by decide),
   C4_amended_registration.2.2.2.2.1 [some "hw9"],
   C4_amended_registration.2.2.2.2.2.2 1 (by decide) (by decide)⟩

/-- C7: a line of the `.env` file contributes an entry exactly when it is
non-empty, does not begin with `'#'` and contains `'='`; the entry maps
the (necessarily `'='`-free) prefix before the first `'='` to everything
after it; a contributing line placed last is visible in the returned map;
and a skipped (blank, comment or malformed) line does not affect what the
rest of the file loads. -/
theorem C7_loadEnvFile_line_contract :
    (∀ line : List Char,
      (line = [] ∨ line.head? = some '#' ∨ '=' ∉ line) → parseEnvLine line = none)
    ∧ (∀ (line k v : List Char),
        parseEnvLine line = some (k, v)
        ↔ (line ≠ [] ∧ line.head? ≠ some '#' ∧ '=' ∉ k ∧ line = k ++ '=' :: v))
    ∧ (∀ (lines : List (List Char)) (line k v : List Char),
        parseEnvLine line = some (k, v) → loadEnvFile (lines ++ [line]) k = some v)
    ∧ (∀ (pre post : List (List Char)) (bad : List Char),
        parseEnvLine bad = none →
        loadEnvFile (pre ++ bad :: post) = loadEnvFile (pre ++ post)) := by
  refine ⟨?_, ?_, ?_, ?_⟩
  · rintro line (h | h | h)
    · subst h; rfl
    · cases line with
      | nil => rfl
      | cons c rest =>
        simp only [List.head?] at h
        rw [parseEnvLine, if_neg (by simp), if_pos (by simp [h])]
    · rw [parseEnvLine]
      by_cases h1 : line = []
      · rw [if_pos h1]
      · rw [if_neg h1]
        by_cases h2 : line.head? = some '#'
        · rw [if_pos h2]
        · rw [if_neg h2]
          exact splitAtEq_eq_none line h
  · intro line k v
    constructor
    · intro h
      rw [parseEnvLine] at h
      by_cases h1 : line = []
      · rw [if_pos h1] at h; exact absurd h (by simp)
      · rw [if_neg h1] at h
        by_cases h2 : line.head? = some '#'
        · rw [if_pos h2] at h; exact absurd h (by simp)
        · rw [if_neg h2] at h
          obtain ⟨hmem, heq⟩ := splitAtEq_sound line k v h
          exact ⟨h1, h2, hmem, heq⟩
    · rintro ⟨h1, h2, hmem, heq⟩
      rw [parseEnvLine, if_neg h1, if_neg h2, heq]
      exact splitAtEq_complete k v hmem
  · intro lines line k v h
    show List.foldl envStep (fun _ => none) (lines ++ [line]) k = some v
    rw [List.foldl_append]
    simp [envStep, h]
  · intro pre post bad h
    show List.foldl envStep (fun _ => none) (pre ++ bad :: post)
        = List.foldl envStep (fun _ => none) (pre ++ post)
    rw [List.foldl_append, List.foldl_append, List.foldl_cons, envStep_skip _ _ h]

/-- C7 instantiated: the file `["A=1", "#c=2", "oops", "B=x=y", ""]` —
the comment, the `'='`-less line and the blank line contribute nothing and
do not block `"B=x=y"`, which maps `B` to `x=y` (split at the first
`'='`). -/
theorem C7_loadEnvFile_line_contract_witness :
    parseEnvLine ['#', 'c', '=', '2'] = none
    ∧ (parseEnvLine ['B', '=', 'x', '=', 'y'] = some (['B'], ['x', '=', 'y'])
        ↔ (['B', '=', 'x', '=', 'y'] ≠ ([] : List Char)
            ∧ (['B', '=', 'x', '=', 'y'] : List Char).head? ≠ some '#'
            ∧ '=' ∉ ['B']
            ∧ ['B', '=', 'x', '=', 'y'] = ['B'] ++ '=' :: ['x', '=', 'y']))
    ∧ loadEnvFile [['A', '=', '1'], ['B', '=', 'x', '=', 'y']] ['B']
        = some ['x', '=', 'y']
    ∧ loadEnvFile [['A', '=', '1'], ['o', 'o', 'p', 's'], ['B', '=', 'x', '=', 'y']]
        = loadEnvFile [['A', '=', '1'], ['B', '=', 'x', '=', 'y']] :=
  ⟨C7_loadEnvFile_line_contract.1 ['#', 'c', '=', '2'] (Or.inr (Or.inl rfl)),
   C7_loadEnvFile_line_contract.2.1 ['B', '=', 'x', '=', 'y'] ['B'] ['x', '=', 'y'],
   C7_loadEnvFile_line_contract.2.2.1 [['A', '=', '1']] ['B', '=', 'x', '=', 'y']
     ['B'] ['x', '=', 'y'] (by decide),
   C7_loadEnvFile_line_contract.2.2.2 [['A', '=', '1']] [['B', '=', 'x', '=', 'y']]
     ['o', 'o', 'p', 's'] (by decide)⟩

theorem loopExecutes_flag (flag : ℕ → Bool) (t : ℕ → ℕ) :
    ∀ i, loopExecutes flag t i = true → flag (t i) = true := by
  intro i
  cases i with
  | zero => exact fun h => h
  | succ n =>
    intro h
    exact (Bool.and_eq_true _ _ |>.mp h).2

/-- C8: for a loop of the source's shape `while (is_run) { work; sleep }`
— the shape of the Update, Send, Display, Inference and Remote-Config
loops, each of which reads `is_run` exactly once per iteration at the top
— the executed iterations form a prefix; once the flag is false from time
`T` on, no iteration whose loop-top check happens at or after `T`
executes; and at most one executed iteration is still in flight at `T`
(i.e. has its next loop-top check at or after `T`), so at most one further
work-plus-sleep iteration runs after the flag drops. -/
theorem C8_loop_top_flag_check (flag : ℕ → Bool) (t : ℕ → ℕ) (T : ℕ)
    (ht : StrictMono t) (hT : ∀ s, T ≤ s → flag s = false) :
    (∀ i, loopExecutes flag t (i + 1) = true → loopExecutes flag t i = true)
    ∧ (∀ i, loopExecutes flag t i = true → t i < T)
    ∧ (∀ i j, loopExecutes flag t i = true → loopExecutes flag t j = true →
        T ≤ t (i + 1) → T ≤ t (j + 1) → i = j) := by
  have hlt : ∀ i, loopExecutes flag t i = true → t i < T := by
    intro i hi
    by_contra hge
    push_neg at hge
    have hfalse := hT (t i) hge
    rw [loopExecutes_flag flag t i hi] at hfalse
    exact Bool.noConfusion hfalse
  refine ⟨?_, hlt, ?_⟩
  · intro i h
    exact (Bool.and_eq_true _ _ |>.mp h).1
  · intro i j hi hj hTi hTj
    rcases lt_trichotomy i j with hij | hij | hij
    · exfalso
      have h1 : t (i + 1) ≤ t j := ht.monotone (by omega)
      have h2 := hlt j hj
      omega
    · exact hij
    · exfalso
      have h1 : t (j + 1) ≤ t i := ht.monotone (by omega)
      have h2 := hlt i hi
      omega

/-- C8 instantiated: the flag `s < 3` sampled at the identity schedule —
iteration 1 executes and its loop-top check indeed happens before the
drop time 3. -/
theorem C8_loop_top_flag_check_witness :
    id 1 < 3 ∧ loopExecutes (fun s => decide (s < 3)) id 1 = true :=
  ⟨(C8_loop_top_flag_check (fun s => decide (s < 3)) id 3 strictMono_id
      (fun s hs => by simp only [decide_eq_false_iff_not]; omega)).2.1 1 (by decide),
   by decide⟩

end EdgeFrontier
